import Mathlib

/-!
Verification of the watermark application's geometry, rendering-placement,
resize, naming, serialization and template logic, shallowly embedded from
the Python sources under `src/watermark_app/`.

Conventions of the embedding:
  * Python `float` values are modelled as exact rationals (`ℚ`).  All the
    constants that appear in the verified code paths (0.33, 0.5, 0.66, 1.0,
    divisions by 2 and by 100) are used only in comparisons and equalities
    that are exact at the inputs considered, so no binary-float rounding is
    modelled.
  * Python `int(x)` (truncation towards zero) is `pyInt`.
  * Qt classes (`QImage`, `QPixmap`, `QPainter`, font metrics, the file
    system) are external collaborators: their behaviour enters the model as
    explicit parameters (`RenderEnv`, `FsoEnv`), never as hidden state.
-/

/-- Python `int(x)`: truncation of a rational towards zero. -/
def pyInt (q : ℚ) : ℤ := if 0 ≤ q then ⌊q⌋ else ⌈q⌉

/-- The nine symbolic anchors of `watermark_settings.WatermarkAnchor`. -/
inductive WatermarkAnchor where
  | TOP_LEFT
  | TOP_CENTER
  | TOP_RIGHT
  | CENTER_LEFT
  | CENTER
  | CENTER_RIGHT
  | BOTTOM_LEFT
  | BOTTOM_CENTER
  | BOTTOM_RIGHT
deriving DecidableEq, Repr

/-- String value of each anchor (`WatermarkAnchor(str, Enum)` in
`watermark_settings.py`). -/
def anchorValue : WatermarkAnchor → String
  | .TOP_LEFT => "top_left"
  | .TOP_CENTER => "top_center"
  | .TOP_RIGHT => "top_right"
  | .CENTER_LEFT => "center_left"
  | .CENTER => "center"
  | .CENTER_RIGHT => "center_right"
  | .BOTTOM_LEFT => "bottom_left"
  | .BOTTOM_CENTER => "bottom_center"
  | .BOTTOM_RIGHT => "bottom_right"

/-- Inverse enum lookup `WatermarkAnchor(value)`: `none` models the
`ValueError` Python raises on an unknown value. -/
def anchorFromValue (s : String) : Option WatermarkAnchor :=
  if s = "top_left" then some .TOP_LEFT
  else if s = "top_center" then some .TOP_CENTER
  else if s = "top_right" then some .TOP_RIGHT
  else if s = "center_left" then some .CENTER_LEFT
  else if s = "center" then some .CENTER
  else if s = "center_right" then some .CENTER_RIGHT
  else if s = "bottom_left" then some .BOTTOM_LEFT
  else if s = "bottom_center" then some .BOTTOM_CENTER
  else if s = "bottom_right" then some .BOTTOM_RIGHT
  else none

/-- `utils.anchor_to_position` (utils.py lines 23-35): the ratio table. -/
def anchor_to_position : WatermarkAnchor → ℚ × ℚ
  | .TOP_LEFT => (0, 0)
  | .TOP_CENTER => (1/2, 0)
  | .TOP_RIGHT => (1, 0)
  | .CENTER_LEFT => (0, 1/2)
  | .CENTER => (1/2, 1/2)
  | .CENTER_RIGHT => (1, 1/2)
  | .BOTTOM_LEFT => (0, 1)
  | .BOTTOM_CENTER => (1/2, 1)
  | .BOTTOM_RIGHT => (1, 1)

/-- `utils.nearest_anchor` (utils.py lines 38-53): buckets each normalized
axis into three bands and looks the pair up in the 3x3 grid. -/
def nearest_anchor (p : ℚ × ℚ) : WatermarkAnchor :=
  let xBucket : ℕ := if p.1 < 33/100 then 0 else if p.1 ≤ 66/100 then 1 else 2
  let yBucket : ℕ := if p.2 < 33/100 then 0 else if p.2 ≤ 66/100 then 1 else 2
  match xBucket, yBucket with
  | 0, 0 => .TOP_LEFT
  | 1, 0 => .TOP_CENTER
  | _, 0 => .TOP_RIGHT
  | 0, 1 => .CENTER_LEFT
  | 1, 1 => .CENTER
  | _, 1 => .CENTER_RIGHT
  | 0, _ => .BOTTOM_LEFT
  | 1, _ => .BOTTOM_CENTER
  | _, _ => .BOTTOM_RIGHT

/-- `utils.clamp` (utils.py lines 10-11): `max(min_value, min(max_value, value))`. -/
def clamp (value minValue maxValue : ℚ) : ℚ :=
  max minValue (min maxValue value)

/-- C10: classifying each anchor's own canonical ratio point through the
nearest-anchor bucketing returns the same anchor. -/
theorem nearest_anchor_anchor_to_position (a : WatermarkAnchor) :
    nearest_anchor (anchor_to_position a) = a := by
  cases a <;> norm_num [nearest_anchor, anchor_to_position]

/-- Closed witness for C10 at a concrete anchor. -/
theorem nearest_anchor_anchor_to_position_witness :
    nearest_anchor (anchor_to_position WatermarkAnchor.CENTER) = WatermarkAnchor.CENTER :=
  nearest_anchor_anchor_to_position WatermarkAnchor.CENTER

/-- The whitespace set of Python `str.strip()` restricted to the ASCII
whitespace characters (space, tab, newline, carriage return, vertical tab,
form feed); non-ASCII Unicode spaces are not modelled. -/
def pyIsSpace (c : Char) : Bool :=
  c == ' ' || c == '\t' || c == '\n' || c == '\r' || c == '\x0b' || c == '\x0c'

/-- Python `s.strip()`: drop whitespace from both ends. -/
def pyStrip (s : String) : String :=
  String.mk ((((s.toList.dropWhile pyIsSpace).reverse).dropWhile pyIsSpace).reverse)

/-- Python `s.lower()` for the ASCII strings used as format names. -/
def pyLower (s : String) : String :=
  String.mk (s.toList.map Char.toLower)

/-- A Python value as it appears in the dictionaries produced and consumed
by the `to_dict`/`from_dict` methods: strings, ints, floats (as exact
rationals), booleans, `None`, lists, tuples and string-keyed dicts. -/
inductive PyVal where
  | str (s : String)
  | int (n : ℤ)
  | float (q : ℚ)
  | bool (b : Bool)
  | none
  | list (xs : List PyVal)
  | tuple (xs : List PyVal)
  | dict (entries : List (String × PyVal))

/-- A Python dict with string keys. -/
def PyDict : Type := List (String × PyVal)

/-- `d.get(key)`: the first entry with the given key, if any. -/
def pyGet : PyDict → String → Option PyVal
  | [], _ => Option.none
  | kv :: rest, key => if kv.1 = key then some kv.2 else pyGet rest key

/-- Python `float(x)` on an int or float value (`none` models the
`TypeError` on other values). -/
def asFloat : PyVal → Option ℚ
  | .float q => some q
  | .int n => some (n : ℚ)
  | _ => Option.none

/-- Read a string-typed dataclass field: a missing key falls back to the
given default, a present key must hold a string. -/
def getStr (d : PyDict) (key : String) (dflt : String) : Option String :=
  match pyGet d key with
  | Option.none => some dflt
  | some (PyVal.str s) => some s
  | some _ => Option.none

/-- Read an int-typed dataclass field with a default. -/
def getInt (d : PyDict) (key : String) (dflt : ℤ) : Option ℤ :=
  match pyGet d key with
  | Option.none => some dflt
  | some (PyVal.int n) => some n
  | some _ => Option.none

/-- Read a bool-typed dataclass field with a default. -/
def getBool (d : PyDict) (key : String) (dflt : Bool) : Option Bool :=
  match pyGet d key with
  | Option.none => some dflt
  | some (PyVal.bool b) => some b
  | some _ => Option.none

/-- An RGBA color: four channel integers (`Color` in watermark_settings.py). -/
def Color : Type := ℤ × ℤ × ℤ × ℤ

/-- Read a `Color` field: a 4-tuple of ints. -/
def getColor (d : PyDict) (key : String) (dflt : Color) : Option Color :=
  match pyGet d key with
  | Option.none => some dflt
  | some (PyVal.tuple [PyVal.int r, PyVal.int g, PyVal.int b, PyVal.int a]) =>
      some (r, g, b, a)
  | some _ => Option.none

/-- Read an `(int, int)` tuple field. -/
def getIntPair (d : PyDict) (key : String) (dflt : ℤ × ℤ) : Option (ℤ × ℤ) :=
  match pyGet d key with
  | Option.none => some dflt
  | some (PyVal.tuple [PyVal.int x, PyVal.int y]) => some (x, y)
  | some _ => Option.none

/-- Read an `Optional[str]` field (`None` is a legal stored value). -/
def getOptStr (d : PyDict) (key : String) (dflt : Option String) : Option (Option String) :=
  match pyGet d key with
  | Option.none => some dflt
  | some PyVal.none => some Option.none
  | some (PyVal.str s) => some (some s)
  | some _ => Option.none

/-- `watermark_settings.WatermarkType`: the TEXT/IMAGE discriminator. -/
inductive WatermarkType where
  | TEXT
  | IMAGE
deriving DecidableEq, Repr

/-- String value of each watermark type. -/
def typeValue : WatermarkType → String
  | .TEXT => "text"
  | .IMAGE => "image"

/-- Inverse enum lookup `WatermarkType(value)`. -/
def typeFromValue (s : String) : Option WatermarkType :=
  if s = "text" then some .TEXT
  else if s = "image" then some .IMAGE
  else Option.none

/-- `watermark_settings.TextWatermarkSettings` (lines 27-46). -/
structure TextWatermarkSettings where
  text : String := "Watermark"
  fontFamily : String := "Arial"
  fontSize : ℤ := 32
  bold : Bool := false
  italic : Bool := false
  color : Color := (255, 255, 255, 255)
  opacity : ℤ := 80
  shadowEnabled : Bool := false
  outlineEnabled : Bool := false
  outlineWidth : ℤ := 2
  shadowOffset : ℤ × ℤ := (2, 2)

/-- `TextWatermarkSettings.to_dict` (`dataclasses.asdict`): every field under
its Python field name; tuples stay tuples. -/
def TextWatermarkSettings.toDict (t : TextWatermarkSettings) : PyDict :=
  [("text", PyVal.str t.text),
   ("font_family", PyVal.str t.fontFamily),
   ("font_size", PyVal.int t.fontSize),
   ("bold", PyVal.bool t.bold),
   ("italic", PyVal.bool t.italic),
   ("color", PyVal.tuple [PyVal.int t.color.1, PyVal.int t.color.2.1,
                          PyVal.int t.color.2.2.1, PyVal.int t.color.2.2.2]),
   ("opacity", PyVal.int t.opacity),
   ("shadow_enabled", PyVal.bool t.shadowEnabled),
   ("outline_enabled", PyVal.bool t.outlineEnabled),
   ("outline_width", PyVal.int t.outlineWidth),
   ("shadow_offset", PyVal.tuple [PyVal.int t.shadowOffset.1, PyVal.int t.shadowOffset.2])]

/-- `TextWatermarkSettings.from_dict`, i.e. `cls(**data)`: each field is read
from the dict, missing keys take the dataclass defaults.  (Python would
accept an ill-typed value and raise on an unknown key; those off-round-trip
behaviours are modelled as `none` and as ignoring the extra key.) -/
def TextWatermarkSettings.fromDict (d : PyDict) : Option TextWatermarkSettings := do
  let text ← getStr d "text" "Watermark"
  let fontFamily ← getStr d "font_family" "Arial"
  let fontSize ← getInt d "font_size" 32
  let bold ← getBool d "bold" false
  let italic ← getBool d "italic" false
  let color ← getColor d "color" (255, 255, 255, 255)
  let opacity ← getInt d "opacity" 80
  let shadowEnabled ← getBool d "shadow_enabled" false
  let outlineEnabled ← getBool d "outline_enabled" false
  let outlineWidth ← getInt d "outline_width" 2
  let shadowOffset ← getIntPair d "shadow_offset" (2, 2)
  pure ⟨text, fontFamily, fontSize, bold, italic, color, opacity,
        shadowEnabled, outlineEnabled, outlineWidth, shadowOffset⟩

/-- `watermark_settings.ImageWatermarkSettings` (lines 49-60). -/
structure ImageWatermarkSettings where
  imagePath : Option String := Option.none
  scale : ℚ := 1/4
  opacity : ℤ := 70

/-- `ImageWatermarkSettings.to_dict` (`dataclasses.asdict`). -/
def ImageWatermarkSettings.toDict (i : ImageWatermarkSettings) : PyDict :=
  [("image_path", match i.imagePath with
                  | Option.none => PyVal.none
                  | some p => PyVal.str p),
   ("scale", PyVal.float i.scale),
   ("opacity", PyVal.int i.opacity)]

/-- `ImageWatermarkSettings.from_dict`, i.e. `cls(**data)`. -/
def ImageWatermarkSettings.fromDict (d : PyDict) : Option ImageWatermarkSettings := do
  let imagePath ← getOptStr d "image_path" Option.none
  let scale ← match pyGet d "scale" with
              | Option.none => some (1/4 : ℚ)
              | some v => asFloat v
  let opacity ← getInt d "opacity" 70
  pure ⟨imagePath, scale, opacity⟩

/-- `watermark_settings.WatermarkLayout` (lines 63-79): a normalized
position and a symbolic anchor. -/
structure WatermarkLayout where
  position : ℚ × ℚ := (1/2, 1/2)
  anchor : WatermarkAnchor := .CENTER

/-- `WatermarkLayout.to_dict`: the position tuple becomes a list, the anchor
its string value. -/
def WatermarkLayout.toDict (l : WatermarkLayout) : PyDict :=
  [("position", PyVal.list [PyVal.float l.position.1, PyVal.float l.position.2]),
   ("anchor", PyVal.str (anchorValue l.anchor))]

/-- `WatermarkLayout.from_dict` (lines 71-79): a list position is converted
through `float` on its first two elements; a tuple position is taken as-is;
the anchor string goes through the enum constructor. -/
def WatermarkLayout.fromDict (d : PyDict) : Option WatermarkLayout := do
  let position ← match pyGet d "position" with
    | Option.none => some ((1/2 : ℚ), (1/2 : ℚ))
    | some (PyVal.list (a :: b :: _)) =>
        match asFloat a, asFloat b with
        | some x, some y => some (x, y)
        | _, _ => Option.none
    | some (PyVal.tuple [PyVal.float x, PyVal.float y]) => some (x, y)
    | some _ => Option.none
  let anchor ← match pyGet d "anchor" with
    | Option.none => anchorFromValue (anchorValue .CENTER)
    | some (PyVal.str s) => anchorFromValue s
    | some _ => Option.none
  pure ⟨position, anchor⟩

/-- `watermark_settings.WatermarkSettings` (lines 82-107): the top-level
watermark descriptor; both payloads are always present. -/
structure WatermarkSettings where
  watermarkType : WatermarkType := .TEXT
  textSettings : TextWatermarkSettings := {}
  imageSettings : ImageWatermarkSettings := {}
  rotation : ℚ := 0
  layout : WatermarkLayout := {}

/-- `WatermarkSettings.to_dict` (lines 90-97). -/
def WatermarkSettings.toDict (s : WatermarkSettings) : PyDict :=
  [("watermark_type", PyVal.str (typeValue s.watermarkType)),
   ("text_settings", PyVal.dict s.textSettings.toDict),
   ("image_settings", PyVal.dict s.imageSettings.toDict),
   ("rotation", PyVal.float s.rotation),
   ("layout", PyVal.dict s.layout.toDict)]

/-- `WatermarkSettings.from_dict` (lines 99-107). -/
def WatermarkSettings.fromDict (d : PyDict) : Option WatermarkSettings := do
  let watermarkType ← match pyGet d "watermark_type" with
    | Option.none => typeFromValue "text"
    | some (PyVal.str s) => typeFromValue s
    | some _ => Option.none
  let textSettings ← match pyGet d "text_settings" with
    | Option.none => TextWatermarkSettings.fromDict []
    | some (PyVal.dict sub) => TextWatermarkSettings.fromDict sub
    | some _ => Option.none
  let imageSettings ← match pyGet d "image_settings" with
    | Option.none => ImageWatermarkSettings.fromDict []
    | some (PyVal.dict sub) => ImageWatermarkSettings.fromDict sub
    | some _ => Option.none
  let rotation ← match pyGet d "rotation" with
    | Option.none => some (0 : ℚ)
    | some v => asFloat v
  let layout ← match pyGet d "layout" with
    | Option.none => WatermarkLayout.fromDict []
    | some (PyVal.dict sub) => WatermarkLayout.fromDict sub
    | some _ => Option.none
  pure ⟨watermarkType, textSettings, imageSettings, rotation, layout⟩

/-- C4: serializing any `WatermarkSettings` with `to_dict` and reading it
back with `from_dict` reproduces every field exactly, including every
nested field of the text descriptor, the image descriptor and the layout. -/
theorem settings_roundtrip (s : WatermarkSettings) :
    WatermarkSettings.fromDict s.toDict = some s := by
  obtain ⟨ty, ts, imgs, rot, lay⟩ := s
  obtain ⟨path, sc, op⟩ := imgs
  obtain ⟨pos, anc⟩ := lay
  cases ty <;> cases path <;> cases anc <;> rfl

/-- A base image as the renderer sees it: its pixel dimensions and its
content bytes.  Equality of two `QImage` values is byte identity. -/
structure QImage where
  width : ℤ
  height : ℤ
  bytes : List ℕ
deriving DecidableEq

/-- An overlay pixmap produced by the watermark builder: its dimensions and
content bytes. -/
structure Overlay where
  width : ℤ
  height : ℤ
  bytes : List ℕ
deriving DecidableEq

/-- The Qt collaborators of `watermark_renderer.WatermarkRenderer`, passed
explicitly: `textOverlay` stands for the font-metric measuring and glyph
rasterization of `_build_text_watermark` after its empty-text guard
(lines 39-77), `imageOverlay` for all of `_build_image_watermark`
(lines 79-101, whose `None` cases depend on the file system and the image
decoder), and `drawPixmap` for `QPainter.drawPixmap` source-over
compositing on a copy of the base image.  They are pure functions: the
embedding has no other state they could read. -/
structure RenderEnv where
  textOverlay : TextWatermarkSettings → ℚ → Overlay
  imageOverlay : (ℤ × ℤ) → ImageWatermarkSettings → ℚ → Option Overlay
  drawPixmap : QImage → Overlay → ℚ × ℚ → QImage

/-- `WatermarkRenderer._build_text_watermark` (lines 36-77): returns no
pixmap exactly when the stripped text is empty; otherwise the rasterized
(and possibly rotated) glyph pixmap. -/
def buildTextWatermark (env : RenderEnv) (t : TextWatermarkSettings) (rotation : ℚ) :
    Option Overlay :=
  if pyStrip t.text = "" then Option.none
  else some (env.textOverlay t rotation)

/-- `WatermarkRenderer.build_watermark` (lines 27-34): dispatch on the
watermark type. -/
def build_watermark (env : RenderEnv) (baseSize : ℤ × ℤ) (s : WatermarkSettings) :
    Option Overlay :=
  match s.watermarkType with
  | .TEXT => buildTextWatermark env s.textSettings s.rotation
  | .IMAGE => env.imageOverlay baseSize s.imageSettings s.rotation

/-- `WatermarkRenderer.apply_watermark` (lines 103-117): copy the base
image; if no overlay was built return the copy unchanged, else draw the
overlay with its top-left corner at
`(position.x - overlay_width * ratio.x, position.y - overlay_height * ratio.y)`. -/
def apply_watermark (env : RenderEnv) (base : QImage) (s : WatermarkSettings)
    (position anchorRatio : ℚ × ℚ) : QImage :=
  match build_watermark env (base.width, base.height) s with
  | Option.none => base
  | some wm =>
      env.drawPixmap base wm
        (position.1 - (wm.width : ℚ) * anchorRatio.1,
         position.2 - (wm.height : ℚ) * anchorRatio.2)

/-- C1: the anchor-ratio table is exactly the one of the specification, and
whenever `apply_watermark` builds an overlay it draws it with its top-left
corner at `anchor_point - (ratio.x * overlay_width, ratio.y * overlay_height)`. -/
theorem anchor_table_and_placement :
    (anchor_to_position .TOP_LEFT = (0, 0)
     ∧ anchor_to_position .TOP_CENTER = (1/2, 0)
     ∧ anchor_to_position .TOP_RIGHT = (1, 0)
     ∧ anchor_to_position .CENTER_LEFT = (0, 1/2)
     ∧ anchor_to_position .CENTER = (1/2, 1/2)
     ∧ anchor_to_position .CENTER_RIGHT = (1, 1/2)
     ∧ anchor_to_position .BOTTOM_LEFT = (0, 1)
     ∧ anchor_to_position .BOTTOM_CENTER = (1/2, 1)
     ∧ anchor_to_position .BOTTOM_RIGHT = (1, 1))
    ∧ ∀ (env : RenderEnv) (base : QImage) (s : WatermarkSettings)
        (position ratio : ℚ × ℚ) (wm : Overlay),
        build_watermark env (base.width, base.height) s = some wm →
        apply_watermark env base s position ratio =
          env.drawPixmap base wm
            (position.1 - ratio.1 * (wm.width : ℚ),
             position.2 - ratio.2 * (wm.height : ℚ)) := by
  refine ⟨⟨rfl, rfl, rfl, rfl, rfl, rfl, rfl, rfl, rfl⟩, ?_⟩
  intro env base s position ratio wm h
  simp only [apply_watermark, h, mul_comm]

/-- A concrete render environment used by the closed witness theorems. -/
def constEnv : RenderEnv where
  textOverlay := fun _ _ => ⟨10, 10, [1]⟩
  imageOverlay := fun _ _ _ => Option.none
  drawPixmap := fun base _ _ => ⟨base.width, base.height, 2 :: base.bytes⟩

/-- Closed witness for C1: the placement equation at a concrete
environment, base image, settings and position. -/
theorem anchor_table_and_placement_witness :
    apply_watermark constEnv ⟨100, 50, []⟩ {} (5, 7) (1/2, 1/2) =
      constEnv.drawPixmap ⟨100, 50, []⟩ ⟨10, 10, [1]⟩
        (5 - (1/2) * (10 : ℚ), 7 - (1/2) * (10 : ℚ)) :=
  anchor_table_and_placement.2 constEnv ⟨100, 50, []⟩ {} (5, 7) (1/2, 1/2)
    ⟨10, 10, [1]⟩ rfl

/-- Helper: a string all of whose characters are whitespace strips to the
empty string. -/
theorem pyStrip_eq_empty (s : String) (h : ∀ c ∈ s.toList, pyIsSpace c) :
    pyStrip s = "" := by
  unfold pyStrip
  rw [List.dropWhile_eq_nil_iff.mpr h]
  rfl

/-- C7: on a TEXT watermark whose text is empty or whitespace-only, the
builder produces no overlay and `apply_watermark` returns the base image
unchanged (the embedding is pure, so the input is not mutated and the
returned image is the byte-identical base value). -/
theorem empty_text_soft (env : RenderEnv) (s : WatermarkSettings) (base : QImage)
    (position ratio : ℚ × ℚ)
    (hty : s.watermarkType = .TEXT)
    (hws : ∀ c ∈ s.textSettings.text.toList, pyIsSpace c) :
    build_watermark env (base.width, base.height) s = Option.none
    ∧ apply_watermark env base s position ratio = base := by
  have hb : build_watermark env (base.width, base.height) s = Option.none := by
    unfold build_watermark
    rw [hty]
    unfold buildTextWatermark
    rw [pyStrip_eq_empty _ hws]
    rfl
  refine ⟨hb, ?_⟩
  unfold apply_watermark
  rw [hb]

/-- Closed witness for C7 at a whitespace-only text watermark. -/
theorem empty_text_soft_witness :
    build_watermark constEnv ((3 : ℤ), (4 : ℤ))
        { textSettings := { text := "  " } } = Option.none
    ∧ apply_watermark constEnv ⟨3, 4, [9]⟩ { textSettings := { text := "  " } }
        (0, 0) (0, 0) = ⟨3, 4, [9]⟩ :=
  empty_text_soft constEnv { textSettings := { text := "  " } } ⟨3, 4, [9]⟩
    (0, 0) (0, 0) rfl (by decide)

/-- C8: `apply_watermark` is deterministic: the embedding is a pure function
of the render environment, base image, settings, position and anchor ratio,
so two calls on identical inputs return pixel-identical images; there is no
other state in the model it could read. -/
theorem apply_watermark_deterministic (env : RenderEnv)
    (base₁ base₂ : QImage) (s₁ s₂ : WatermarkSettings) (p₁ p₂ r₁ r₂ : ℚ × ℚ)
    (hb : base₁ = base₂) (hs : s₁ = s₂) (hp : p₁ = p₂) (hr : r₁ = r₂) :
    apply_watermark env base₁ s₁ p₁ r₁ = apply_watermark env base₂ s₂ p₂ r₂ := by
  subst hb
  subst hs
  subst hp
  subst hr
  rfl

/-- Closed witness for C8 at concrete identical inputs. -/
theorem apply_watermark_deterministic_witness :
    apply_watermark constEnv ⟨2, 2, [5]⟩ {} (1, 1) (0, 0) =
      apply_watermark constEnv ⟨2, 2, [5]⟩ {} (1, 1) (0, 0) :=
  apply_watermark_deterministic constEnv ⟨2, 2, [5]⟩ ⟨2, 2, [5]⟩ {} {}
    (1, 1) (1, 1) (0, 0) (0, 0) rfl rfl rfl rfl

/-- `export_settings.ResizeMode`. -/
inductive ResizeMode where
  | NONE
  | WIDTH
  | HEIGHT
  | PERCENT
deriving DecidableEq, Repr

/-- `MainWindow._resize_image` (main_window.py lines 341-362), modelled on
the dimensions it computes and passes to the scaler: `value or 0` turns a
missing value into 0; NONE mode or a non-positive value leaves the image
unchanged; otherwise the new dimensions are computed with Python float
division and `int(...)` truncation, then floored at 1.  (The final
`QImage.scaled(..., KeepAspectRatio, ...)` call is an external Qt
collaborator; this embedding gives the dimensions requested of it.) -/
def resize_image (mode : ResizeMode) (resizeValue : Option ℤ) (w h : ℤ) : ℤ × ℤ :=
  let value := resizeValue.getD 0
  if mode = ResizeMode.NONE ∨ value ≤ 0 then (w, h)
  else
    match mode with
    | .NONE => (w, h)
    | .WIDTH =>
        let newWidth := value
        let newHeight := pyInt ((h : ℚ) * ((newWidth : ℚ) / (w : ℚ)))
        (max 1 newWidth, max 1 newHeight)
    | .HEIGHT =>
        let newHeight := value
        let newWidth := pyInt ((w : ℚ) * ((newHeight : ℚ) / (h : ℚ)))
        (max 1 newWidth, max 1 newHeight)
    | .PERCENT =>
        let scale := (value : ℚ) / 100
        (max 1 (pyInt ((w : ℚ) * scale)), max 1 (pyInt ((h : ℚ) * scale)))

/-- Python `round(x)` on a rational: round half to even. -/
def pyRound (q : ℚ) : ℤ :=
  if q - ⌊q⌋ < 1/2 then ⌊q⌋
  else if 1/2 < q - ⌊q⌋ then ⌊q⌋ + 1
  else if Even ⌊q⌋ then ⌊q⌋ else ⌊q⌋ + 1

/-- Counterexample to C2 as stated: on a 4x3 image in width mode with
V = 2, the code computes `int(3 * (2 / 4)) = 1` for the new height, while
the claimed formula `round(h * V / w) = round(1.5) = 2` demands 2. -/
theorem resize_round_counterexample :
    resize_image ResizeMode.WIDTH (some 2) 4 3 = (2, 1)
    ∧ pyRound ((3 : ℚ) * 2 / 4) = 2
    ∧ resize_image ResizeMode.WIDTH (some 2) 4 3
        ≠ (2, pyRound ((3 : ℚ) * 2 / 4)) := by
  have h1 : resize_image ResizeMode.WIDTH (some 2) 4 3 = (2, 1) := by
    simp [resize_image, pyInt]
    norm_num
  have h2 : pyRound ((3 : ℚ) * 2 / 4) = 2 := by
    norm_num [pyRound, Int.even_iff]
  refine ⟨h1, h2, ?_⟩
  rw [h1, h2]
  decide

/-- C2 as amended: the fractional dimension is truncated with `int(...)`
(not rounded); width mode fixes the width at V, height mode the height,
percent mode scales both by V/100, NONE leaves the image unchanged, and
every mode's result has both dimensions at least 1. -/
theorem resize_dims_amended (V w h : ℤ) (hV : 1 ≤ V) (hw : 1 ≤ w) (hh : 1 ≤ h) :
    resize_image ResizeMode.NONE (some V) w h = (w, h)
    ∧ resize_image ResizeMode.WIDTH (some V) w h
        = (V, max 1 (pyInt ((h : ℚ) * V / w)))
    ∧ resize_image ResizeMode.HEIGHT (some V) w h
        = (max 1 (pyInt ((w : ℚ) * V / h)), V)
    ∧ resize_image ResizeMode.PERCENT (some V) w h
        = (max 1 (pyInt ((w : ℚ) * V / 100)), max 1 (pyInt ((h : ℚ) * V / 100)))
    ∧ ∀ mode, 1 ≤ (resize_image mode (some V) w h).1
        ∧ 1 ≤ (resize_image mode (some V) w h).2 := by
  have hV0 : ¬ (V ≤ 0) := by omega
  have hmax : max 1 V = V := by omega
  have ha : ((h : ℚ) * ((V : ℚ) / (w : ℚ))) = (h : ℚ) * V / w := by ring
  have hb : ((w : ℚ) * ((V : ℚ) / (h : ℚ))) = (w : ℚ) * V / h := by ring
  have hc : ((w : ℚ) * ((V : ℚ) / 100)) = (w : ℚ) * V / 100 := by ring
  have hd : ((h : ℚ) * ((V : ℚ) / 100)) = (h : ℚ) * V / 100 := by ring
  refine ⟨by simp [resize_image], ?_, ?_, ?_, ?_⟩
  · simp [resize_image, hV0, hmax, ha]
  · simp [resize_image, hV0, hmax, hb]
  · simp [resize_image, hV0, hc, hd]
  · intro mode
    cases mode
    all_goals simp [resize_image, hV0]
    all_goals omega

/-- Closed witness for the amended C2 at V = 100 on a 200x100 image (the
spec's own resize-law example, where truncation and rounding agree). -/
theorem resize_dims_amended_witness :
    resize_image ResizeMode.WIDTH (some 100) 200 100
      = (100, max 1 (pyInt ((100 : ℚ) * 100 / 200))) :=
  (resize_dims_amended 100 200 100 (by decide) (by decide) (by decide)).2.1

/-- The overlay center computed by `PreviewWidget.mouseMoveEvent`
(preview_widget.py lines 155-175): the pointer in base space minus the
recorded grab delta, each axis clamped with `utils.clamp` between
`half = overlay_extent / 2` and `base_extent - half`. -/
def dragNewCenter (pointerBase dragDelta : ℚ × ℚ) (wmW wmH baseW baseH : ℚ) : ℚ × ℚ :=
  let newCenterX := pointerBase.1 - dragDelta.1
  let newCenterY := pointerBase.2 - dragDelta.2
  let halfW := wmW / 2
  let halfH := wmH / 2
  (clamp newCenterX halfW (baseW - halfW), clamp newCenterY halfH (baseH - halfH))

/-- The normalized position `mouseMoveEvent` emits: the clamped center
divided by the base dimensions. -/
def dragEmittedPosition (pointerBase dragDelta : ℚ × ℚ) (wmW wmH baseW baseH : ℚ) : ℚ × ℚ :=
  let c := dragNewCenter pointerBase dragDelta wmW wmH baseW baseH
  (c.1 / baseW, c.2 / baseH)

/-- Counterexample to C3 as stated: with a 100-wide base and a 300-wide
overlay, `half_width = 150 > base_width / 2 = 50`, and
`clamp(x, 150, -50) = max(150, min(-50, x)) = 150`: the center is pinned to
`half_width`, not to the midpoint `base_width / 2 = 50` the claim names
(and the claimed bound `center.x <= base_width - half_width = -50` fails
too); the emitted normalized x is 3/2, not 1/2. -/
theorem drag_midpoint_counterexample :
    (dragNewCenter (200, 50) (0, 0) 300 100 100 100).1 = 150
    ∧ (150 : ℚ) ≠ 100 / 2
    ∧ (dragEmittedPosition (200, 50) (0, 0) 300 100 100 100).1 = 3 / 2 := by
  norm_num [dragNewCenter, dragEmittedPosition, clamp]

/-- C3 as amended: while an overlay that fits is dragged, every
pointer-move clamps the new center into
`[half_extent, base_extent - half_extent]` on each axis; when
`half_width > base_width / 2` the center is pinned to `half_width` (the
lower clamp bound), not to the midpoint; the emitted normalized position is
the clamped center divided by the base dimensions; and dragging a
50%-of-base-width overlay past the right edge clamps the normalized x to
`1 - (overlay_width / 2) / base_width`. -/
theorem drag_clamp_amended (pointer delta : ℚ × ℚ) (wmW wmH baseW baseH : ℚ)
    (hbw : 0 < baseW) (_hbh : 0 < baseH) :
    (wmW / 2 ≤ baseW / 2 →
      wmW / 2 ≤ (dragNewCenter pointer delta wmW wmH baseW baseH).1
      ∧ (dragNewCenter pointer delta wmW wmH baseW baseH).1 ≤ baseW - wmW / 2)
    ∧ (wmH / 2 ≤ baseH / 2 →
      wmH / 2 ≤ (dragNewCenter pointer delta wmW wmH baseW baseH).2
      ∧ (dragNewCenter pointer delta wmW wmH baseW baseH).2 ≤ baseH - wmH / 2)
    ∧ (baseW / 2 < wmW / 2 →
      (dragNewCenter pointer delta wmW wmH baseW baseH).1 = wmW / 2)
    ∧ (baseH / 2 < wmH / 2 →
      (dragNewCenter pointer delta wmW wmH baseW baseH).2 = wmH / 2)
    ∧ dragEmittedPosition pointer delta wmW wmH baseW baseH
        = ((dragNewCenter pointer delta wmW wmH baseW baseH).1 / baseW,
           (dragNewCenter pointer delta wmW wmH baseW baseH).2 / baseH)
    ∧ (wmW = baseW / 2 → delta.1 ≤ wmW / 2 → baseW ≤ pointer.1 →
      (dragEmittedPosition pointer delta wmW wmH baseW baseH).1
        = 1 - (wmW / 2) / baseW) := by
  refine ⟨?_, ?_, ?_, ?_, rfl, ?_⟩
  · intro hfit
    constructor
    · exact le_max_left _ _
    · exact max_le (by linarith) (min_le_left _ _)
  · intro hfit
    constructor
    · exact le_max_left _ _
    · exact max_le (by linarith) (min_le_left _ _)
  · intro hbig
    exact max_eq_left (le_of_lt (lt_of_le_of_lt (min_le_left _ _) (by linarith)))
  · intro hbig
    exact max_eq_left (le_of_lt (lt_of_le_of_lt (min_le_left _ _) (by linarith)))
  · intro hhalf hdelta hpointer
    have hcenter : (dragNewCenter pointer delta wmW wmH baseW baseH).1
        = baseW - wmW / 2 := by
      unfold dragNewCenter clamp
      have hmin : min (baseW - wmW / 2) (pointer.1 - delta.1) = baseW - wmW / 2 :=
        min_eq_left (by linarith)
      simp only [hmin]
      exact max_eq_right (by linarith)
    show (dragNewCenter pointer delta wmW wmH baseW baseH).1 / baseW
        = 1 - wmW / 2 / baseW
    rw [hcenter]
    field_simp
    ring

/-- Closed witness for the amended C3 at a concrete in-bounds drag: a
50-wide overlay on a 100-wide base dragged past the right edge emits
normalized x `1 - (50 / 2) / 100 = 3/4`. -/
theorem drag_clamp_amended_witness :
    (dragEmittedPosition (120, 50) (10, 0) 50 20 100 100).1
      = 1 - ((50 : ℚ) / 2) / 100 :=
  (drag_clamp_amended (120, 50) (10, 0) 50 20 100 100 (by norm_num)
    (by norm_num)).2.2.2.2.2 (by norm_num) (by norm_num) (by norm_num)

/-- `export_settings.ExportNamingMode`. -/
inductive ExportNamingMode where
  | KEEP_ORIGINAL
  | PREFIX
  | SUFFIX
deriving DecidableEq, Repr

/-- `export_settings.ExportSettings` (lines 21-58), with the Python field
names camel-cased. -/
structure ExportSettings where
  outputFormat : String := "png"
  outputDir : Option String := Option.none
  namingMode : ExportNamingMode := .SUFFIX
  customPrefix : String := "wm_"
  customSuffix : String := "_watermarked"
  preventOverwrite : Bool := true
  jpegQuality : ℤ := 90
  resizeMode : ResizeMode := .NONE
  resizeValue : Option ℤ := Option.none

/-- The stem transformation of `MainWindow._determine_output_path`
(lines 365-369): keep, or prepend the custom leading string, or append the
custom trailing string. -/
def transformedStem (es : ExportSettings) (stem : String) : String :=
  match es.namingMode with
  | .KEEP_ORIGINAL => stem
  | .PREFIX => es.customPrefix ++ stem
  | .SUFFIX => stem ++ es.customSuffix

/-- The extension choice of `_determine_output_path` (line 370):
`".png" if output_format.lower() == "png" else ".jpg"`. -/
def outputExtension (es : ExportSettings) : String :=
  if pyLower es.outputFormat = "png" then ".png" else ".jpg"

/-- `pathlib`'s `dir / name` join. -/
def pathJoin (dir name : String) : String := dir ++ "/" ++ name

/-- Little-endian decimal digits of `n`, by fuel-bounded recursion (the
fuel `n` itself always suffices). -/
def decDigitsAux : ℕ → ℕ → List ℕ
  | _, 0 => []
  | 0, _ + 1 => []
  | fuel + 1, n + 1 => ((n + 1) % 10) :: decDigitsAux fuel ((n + 1) / 10)

/-- Evaluation of a little-endian decimal digit list. -/
def fromDecDigits : List ℕ → ℕ
  | [] => 0
  | d :: ds => d + 10 * fromDecDigits ds

/-- With enough fuel, `decDigitsAux` is a section of `fromDecDigits`. -/
theorem fromDecDigits_decDigitsAux :
    ∀ fuel n : ℕ, n ≤ fuel → fromDecDigits (decDigitsAux fuel n) = n := by
  intro fuel
  induction fuel with
  | zero => intro n hn; interval_cases n; rfl
  | succ k ih =>
    intro n hn
    match n with
    | 0 => rfl
    | m + 1 =>
      have h2 : (m + 1) / 10 ≤ k := by
        have h3 : (m + 1) / 10 < m + 1 := Nat.div_lt_self (Nat.succ_pos m) (by norm_num)
        omega
      simp only [decDigitsAux, fromDecDigits, ih _ h2]
      omega

/-- A number is smaller than 10 to the number of its decimal digits. -/
theorem lt_ten_pow_length_decDigitsAux :
    ∀ fuel n : ℕ, n ≤ fuel → n < 10 ^ (decDigitsAux fuel n).length := by
  intro fuel
  induction fuel with
  | zero => intro n hn; interval_cases n; decide
  | succ k ih =>
    intro n hn
    match n with
    | 0 => simp [decDigitsAux]
    | m + 1 =>
      have h3 : (m + 1) / 10 < m + 1 := Nat.div_lt_self (Nat.succ_pos m) (by norm_num)
      have h2 : (m + 1) / 10 ≤ k := by omega
      have hrec := ih _ h2
      simp only [decDigitsAux, List.length_cons, pow_succ]
      have hdm := Nat.mod_add_div (m + 1) 10
      nlinarith [hrec, hdm, Nat.mod_lt (m + 1) (show 0 < 10 by norm_num)]

/-- The decimal digit character `0123456789` for a digit value. -/
def digitChar (d : ℕ) : Char := Char.ofNat (48 + d)

/-- Python `str(n)` on a natural number: its decimal representation. -/
def decimalRepr (n : ℕ) : String :=
  if n = 0 then "0"
  else String.mk (((decDigitsAux n n).map digitChar).reverse)

/-- The decimal representation of `10 ^ bound` has more than `bound`
characters. -/
theorem length_decimalRepr_gt (bound : ℕ) :
    bound < (decimalRepr (10 ^ bound)).length := by
  have hpos : 0 < (10 : ℕ) ^ bound := pow_pos (by norm_num) bound
  have hne : (10 : ℕ) ^ bound ≠ 0 := hpos.ne'
  rw [decimalRepr, if_neg hne]
  have hb := lt_ten_pow_length_decDigitsAux (10 ^ bound) (10 ^ bound) le_rfl
  show bound < (((decDigitsAux (10 ^ bound) (10 ^ bound)).map digitChar).reverse).length
  rw [List.length_reverse, List.length_map]
  exact (Nat.pow_lt_pow_iff_right (by norm_num : 1 < 10)).mp hb

/-- The k-th collision-avoidance candidate `dir/stem_k + ext` built by the
while loop of `_determine_output_path` (lines 372-375). -/
def candidateTarget (dir stem ext : String) (k : ℕ) : String :=
  pathJoin dir (stem ++ "_" ++ decimalRepr k ++ ext)

/-- Helper: a member of a list of strings is at most as long as the folded
maximum of the lengths. -/
theorem length_le_foldr_max (l : List String) (s : String) (h : s ∈ l) :
    s.length ≤ (l.map String.length).foldr max 0 := by
  induction l with
  | nil => cases h
  | cons a rest ih =>
    rcases List.mem_cons.mp h with rfl | h2
    · exact le_max_left _ _
    · exact le_trans (ih h2) (le_max_right _ _)

/-- Helper: the collision-search always terminates: some candidate index is
free, because candidate names eventually grow longer than every existing
path. -/
theorem exists_free_candidate (existing : List String) (dir stem ext : String) :
    ∃ k, candidateTarget dir stem ext (k + 1) ∉ existing := by
  refine ⟨10 ^ ((existing.map String.length).foldr max 0) - 1, fun hmem => ?_⟩
  set M := (existing.map String.length).foldr max 0 with hM
  have hk : 10 ^ M - 1 + 1 = 10 ^ M :=
    Nat.succ_pred_eq_of_pos (pow_pos (by norm_num) M)
  rw [hk] at hmem
  have hlen : (candidateTarget dir stem ext (10 ^ M)).length ≤ M :=
    length_le_foldr_max existing _ hmem
  have hgt : M < (decimalRepr (10 ^ M)).length := length_decimalRepr_gt M
  have hge : (decimalRepr (10 ^ M)).length
      ≤ (candidateTarget dir stem ext (10 ^ M)).length := by
    unfold candidateTarget pathJoin
    rw [String.length_append, String.length_append, String.length_append,
        String.length_append]
    omega
  omega

/-- `MainWindow._determine_output_path` (main_window.py lines 364-376): the
base target `dir/stem + ext`; if it exists, the `while target.exists()`
loop tries `stem_1`, `stem_2`, ... and returns the first free candidate,
embedded here as the least free index (which exists by
`exists_free_candidate`).  The existing-files set is passed as the explicit
list `existing`. -/
def determine_output_path (existing : List String) (dir stem ext : String) : String :=
  let base := pathJoin dir (stem ++ ext)
  if base ∈ existing then
    candidateTarget dir stem ext (Nat.find (exists_free_candidate existing dir stem ext) + 1)
  else base

/-- C6: the output path uses the stem transformed by the naming mode with
extension `.png` for png format and `.jpg` otherwise; when the computed
path exists the returned path carries the first integer part, starting at
1, that makes it free. -/
theorem output_path_spec (existing : List String) (es : ExportSettings) (stem dir : String) :
    (es.namingMode = ExportNamingMode.KEEP_ORIGINAL → transformedStem es stem = stem)
    ∧ (es.namingMode = ExportNamingMode.PREFIX →
        transformedStem es stem = es.customPrefix ++ stem)
    ∧ (es.namingMode = ExportNamingMode.SUFFIX →
        transformedStem es stem = stem ++ es.customSuffix)
    ∧ (pyLower es.outputFormat = "png" → outputExtension es = ".png")
    ∧ (¬ pyLower es.outputFormat = "png" → outputExtension es = ".jpg")
    ∧ (pathJoin dir (transformedStem es stem ++ outputExtension es) ∉ existing →
        determine_output_path existing dir (transformedStem es stem) (outputExtension es)
          = pathJoin dir (transformedStem es stem ++ outputExtension es))
    ∧ (pathJoin dir (transformedStem es stem ++ outputExtension es) ∈ existing →
        ∃ k, 1 ≤ k
          ∧ determine_output_path existing dir (transformedStem es stem) (outputExtension es)
              = candidateTarget dir (transformedStem es stem) (outputExtension es) k
          ∧ candidateTarget dir (transformedStem es stem) (outputExtension es) k ∉ existing
          ∧ ∀ j, 1 ≤ j → j < k →
              candidateTarget dir (transformedStem es stem) (outputExtension es) j ∈ existing) := by
  refine ⟨?_, ?_, ?_, ?_, ?_, ?_, ?_⟩
  · intro h; simp [transformedStem, h]
  · intro h; simp [transformedStem, h]
  · intro h; simp [transformedStem, h]
  · intro h; simp [outputExtension, h]
  · intro h; simp [outputExtension, h]
  · intro h; simp [determine_output_path, h]
  · intro h
    refine ⟨Nat.find (exists_free_candidate existing dir (transformedStem es stem)
        (outputExtension es)) + 1, by omega, by simp [determine_output_path, h],
      Nat.find_spec (exists_free_candidate existing dir (transformedStem es stem)
        (outputExtension es)), ?_⟩
    intro j hj1 hjk
    have hmin := Nat.find_min (exists_free_candidate existing dir
      (transformedStem es stem) (outputExtension es)) (m := j - 1) (by omega)
    have hj : j - 1 + 1 = j := by omega
    rw [hj] at hmin
    exact not_not.mp hmin

/-- Closed witness for C6 at the spec's own example: one existing file
`d/a_watermarked.png` and default settings, with every hypothesis
discharged concretely. -/
theorem output_path_spec_witness :
    transformedStem {} "a" = "a" ++ ({} : ExportSettings).customSuffix
    ∧ ∃ k, 1 ≤ k
        ∧ determine_output_path ["d/a_watermarked.png"] "d" (transformedStem {} "a")
            (outputExtension {})
            = candidateTarget "d" (transformedStem {} "a") (outputExtension {}) k
        ∧ candidateTarget "d" (transformedStem {} "a") (outputExtension {}) k
            ∉ ["d/a_watermarked.png"]
        ∧ ∀ j, 1 ≤ j → j < k →
            candidateTarget "d" (transformedStem {} "a") (outputExtension {}) j
              ∈ ["d/a_watermarked.png"] :=
  ⟨(output_path_spec ["d/a_watermarked.png"] {} "a" "d").2.2.1 rfl,
   (output_path_spec ["d/a_watermarked.png"] {} "a" "d").2.2.2.2.2.2
     (List.mem_singleton.mpr rfl)⟩

/-- The file-system collaborators of `MainWindow._export_images`: the
parent directory of a path, the `Path.samefile` check, the stem of a source
file name, and whether the image loader succeeds on a path. -/
structure FsoEnv where
  parent : String → String
  sameFile : String → String → Bool
  stem : String → String
  loadOk : String → Bool

/-- Outcome of a batch export: a configuration error (missing output
directory, or the overwrite-prevention abort), or a finished run with its
success count. -/
inductive ExportOutcome where
  | missingOutputDir
  | overwriteBlocked
  | finished (successCount : ℕ)
deriving DecidableEq, Repr

/-- The per-item loop of `_export_images` (main_window.py lines 313-338):
for each item compute its output path against the files existing at that
moment, skip the item if the loader fails, otherwise write the target (the
resize and watermark compositing between load and save are the functions
modelled above and do not affect which paths are written) and count a
success.  Returns the success count and the list of written paths. -/
def exportLoop (env : FsoEnv) (es : ExportSettings) (dir : String) :
    List String → List String → ℕ → ℕ × List String
  | [], _, count => (count, [])
  | item :: rest, existing, count =>
      let target := determine_output_path existing dir
        (transformedStem es (env.stem item)) (outputExtension es)
      if env.loadOk item then
        let r := exportLoop env es dir rest (target :: existing) (count + 1)
        (r.1, target :: r.2)
      else
        exportLoop env es dir rest existing count

/-- `MainWindow._export_images` (main_window.py lines 300-339): an unset or
empty output directory is a configuration error before anything happens;
with overwrite-prevention on, the batch aborts with a configuration error
before processing any file if the output directory is the same underlying
location as the parent directory of any input item (the preceding `mkdir`
creates the directory but writes no file); otherwise the per-item loop
runs.  Returns the outcome and the list of written output paths. -/
def export_images (env : FsoEnv) (es : ExportSettings) (existing items : List String) :
    ExportOutcome × List String :=
  match es.outputDir with
  | Option.none => (.missingOutputDir, [])
  | some dir =>
      if dir = "" then (.missingOutputDir, [])
      else if es.preventOverwrite
          && items.any (fun item => env.sameFile dir (env.parent item)) then
        (.overwriteBlocked, [])
      else
        let r := exportLoop env es dir items existing 0
        (.finished r.1, r.2)

/-- C5: with overwrite-prevention enabled, if the output directory is the
same underlying location as the parent directory of any input item, the
whole batch aborts with a configuration error and zero output files are
written. -/
theorem export_overwrite_abort (env : FsoEnv) (es : ExportSettings)
    (existing items : List String) (dir item : String)
    (hdir : es.outputDir = some dir) (hne : dir ≠ "")
    (hpo : es.preventOverwrite = true)
    (hmem : item ∈ items)
    (hsame : env.sameFile dir (env.parent item) = true) :
    export_images env es existing items = (ExportOutcome.overwriteBlocked, []) := by
  unfold export_images
  rw [hdir]
  have hany : items.any (fun it => env.sameFile dir (env.parent it)) = true :=
    List.any_eq_true.mpr ⟨item, hmem, hsame⟩
  simp [hne, hpo, hany]

/-- A concrete file-system environment for the closed witnesses: every
path's parent is `"d"`, `samefile` is string equality, stems and loads are
trivial. -/
def constFso : FsoEnv where
  parent := fun _ => "d"
  sameFile := fun a b => a == b
  stem := fun s => s
  loadOk := fun _ => true

/-- Closed witness for C5: exporting one item from directory `d` into
output directory `d` with overwrite-prevention on aborts with zero writes. -/
theorem export_overwrite_abort_witness :
    export_images constFso { outputDir := some "d" } [] ["d/a.png"]
      = (ExportOutcome.overwriteBlocked, []) :=
  export_overwrite_abort constFso { outputDir := some "d" } [] ["d/a.png"] "d"
    "d/a.png" rfl (by decide) rfl (List.mem_singleton.mpr rfl) rfl

/-- The character class `[A-Za-z0-9_-]` kept by the template-name regex. -/
def isTemplateNameChar (c : Char) : Bool :=
  ('A' ≤ c && c ≤ 'Z') || ('a' ≤ c && c ≤ 'z') || ('0' ≤ c && c ≤ '9')
    || c == '_' || c == '-'

/-- Scanner for `INVALID_CHARS_RE.sub("_", s)`: each maximal run of
characters outside `[A-Za-z0-9_-]` becomes one underscore; the flag records
whether the previous character was part of such a run. -/
def subInvalidAux : Bool → List Char → List Char
  | _, [] => []
  | prevInvalid, c :: rest =>
      if isTemplateNameChar c then c :: subInvalidAux false rest
      else if prevInvalid then subInvalidAux true rest
      else '_' :: subInvalidAux true rest

/-- `INVALID_CHARS_RE.sub("_", s)` on the character list of `s`. -/
def subInvalidRuns (l : List Char) : List Char := subInvalidAux false l

/-- `TemplateManager._sanitize_name` (template_manager.py lines 23-28):
strip the name, reject an empty result (`none` models the `ValueError`),
collapse every run of invalid characters into one underscore. -/
def sanitizeName (name : String) : Option String :=
  let cleaned := pyStrip name
  if cleaned = "" then Option.none
  else some (String.mk (subInvalidRuns cleaned.toList))

/-- `TemplateManager._template_path` (lines 30-32) on a successfully
sanitized name: `templates_dir / (sanitized + ".json")`. -/
def templatePath (templatesDir sanitized : String) : String :=
  pathJoin templatesDir (sanitized ++ ".json")

/-- Python truthiness `bool(x)` of a value. -/
def pyTruthy : PyVal → Bool
  | .str s => if s = "" then false else true
  | .int n => if n = 0 then false else true
  | .float q => if q = 0 then false else true
  | .bool b => b
  | .none => false
  | .list xs => match xs with | [] => false | _ => true
  | .tuple xs => match xs with | [] => false | _ => true
  | .dict es => match es with | [] => false | _ => true

/-- Python `int(x)` on an int, float or bool value (`none` models the
error on other values). -/
def asInt : PyVal → Option ℤ
  | .int n => some n
  | .float q => some (pyInt q)
  | .bool b => some (if b then 1 else 0)
  | _ => Option.none

/-- String value of each naming mode. -/
def namingModeValue : ExportNamingMode → String
  | .KEEP_ORIGINAL => "keep"
  | .PREFIX => "prefix"
  | .SUFFIX => "suffix"

/-- Inverse enum lookup `ExportNamingMode(value)`. -/
def namingModeFromValue (s : String) : Option ExportNamingMode :=
  if s = "keep" then some .KEEP_ORIGINAL
  else if s = "prefix" then some .PREFIX
  else if s = "suffix" then some .SUFFIX
  else Option.none

/-- String value of each resize mode. -/
def resizeModeValue : ResizeMode → String
  | .NONE => "none"
  | .WIDTH => "width"
  | .HEIGHT => "height"
  | .PERCENT => "percent"

/-- Inverse enum lookup `ResizeMode(value)`. -/
def resizeModeFromValue (s : String) : Option ResizeMode :=
  if s = "none" then some .NONE
  else if s = "width" then some .WIDTH
  else if s = "height" then some .HEIGHT
  else if s = "percent" then some .PERCENT
  else Option.none

/-- Read an `Optional[int]` field. -/
def getOptInt (d : PyDict) (key : String) (dflt : Option ℤ) : Option (Option ℤ) :=
  match pyGet d key with
  | Option.none => some dflt
  | some PyVal.none => some Option.none
  | some (PyVal.int n) => some (some n)
  | some _ => Option.none

/-- `ExportSettings.from_dict` (export_settings.py lines 46-58): gets with
dataclass defaults, `bool(...)` truthiness for the overwrite flag,
`int(...)` for the quality, enum constructors for the two modes. -/
def ExportSettings.fromDict (d : PyDict) : Option ExportSettings := do
  let outputFormat ← getStr d "output_format" "png"
  let outputDir ← getOptStr d "output_dir" Option.none
  let namingMode ← match pyGet d "naming_mode" with
    | Option.none => namingModeFromValue "suffix"
    | some (PyVal.str s) => namingModeFromValue s
    | some _ => Option.none
  let customPrefix ← getStr d "custom_prefix" "wm_"
  let customSuffix ← getStr d "custom_suffix" "_watermarked"
  let preventOverwrite ← match pyGet d "prevent_overwrite" with
    | Option.none => some true
    | some v => some (pyTruthy v)
  let jpegQuality ← match pyGet d "jpeg_quality" with
    | Option.none => some (90 : ℤ)
    | some v => asInt v
  let resizeMode ← match pyGet d "resize_mode" with
    | Option.none => resizeModeFromValue "none"
    | some (PyVal.str s) => resizeModeFromValue s
    | some _ => Option.none
  let resizeValue ← getOptInt d "resize_value" Option.none
  pure ⟨outputFormat, outputDir, namingMode, customPrefix, customSuffix,
        preventOverwrite, jpegQuality, resizeMode, resizeValue⟩

/-- Failures of the template operations: the `ValueError` on an empty
stripped name, the `FileNotFoundError`, and any parse or constructor
failure while reading the stored payload. -/
inductive TemplateError where
  | emptyName
  | notFound
  | badData
deriving DecidableEq, Repr

/-- The body of `load_template` after the file was read (lines 48-51):
`raw.get("watermark", {})` and `raw.get("export", {})` fed to the two
`from_dict` constructors; any failure inside them is `badData`, never
`notFound`. -/
def parsePayload (wmState exState : PyVal) :
    Except TemplateError (WatermarkSettings × ExportSettings) :=
  match wmState, exState with
  | PyVal.dict w, PyVal.dict e =>
      match WatermarkSettings.fromDict w, ExportSettings.fromDict e with
      | some wm, some ex => .ok (wm, ex)
      | _, _ => .error .badData
  | _, _ => .error .badData

/-- Helper: parsing a present payload never reports not-found. -/
theorem parsePayload_ne_notFound (a b : PyVal) :
    parsePayload a b ≠ Except.error TemplateError.notFound := by
  unfold parsePayload
  cases a <;> cases b <;> try simp
  split <;> simp

/-- `TemplateManager.load_template` (template_manager.py lines 44-51) over
an explicit file system `fs` mapping paths to their parsed JSON contents:
sanitize the name, report not-found exactly if the sanitized file is
absent, else parse the stored payload. -/
def loadTemplate (fs : PyDict) (templatesDir name : String) :
    Except TemplateError (WatermarkSettings × ExportSettings) :=
  match sanitizeName name with
  | Option.none => .error .emptyName
  | some sanitized =>
      match pyGet fs (templatePath templatesDir sanitized) with
      | Option.none => .error .notFound
      | some (PyVal.dict raw) =>
          parsePayload ((pyGet raw "watermark").getD (PyVal.dict []))
            ((pyGet raw "export").getD (PyVal.dict []))
      | some _ => .error .badData

/-- `TemplateManager.delete_template` (lines 53-56): unlink the sanitized
file if it exists, otherwise change nothing; returns the resulting file
system. -/
def deleteTemplate (fs : PyDict) (templatesDir name : String) :
    Except TemplateError PyDict :=
  match sanitizeName name with
  | Option.none => .error .emptyName
  | some sanitized =>
      let path := templatePath templatesDir sanitized
      match pyGet fs path with
      | Option.none => .ok fs
      | some _ => .ok (fs.filter (fun kv => kv.1 != path))

/-- C9: for a name whose sanitization succeeds, `load_template` reports
not-found exactly when the sanitized template file is absent (a present
file yields success or a data error, never a silent default), and
`delete_template` on an absent file is a no-op that does not fail. -/
theorem template_not_found_spec (fs : PyDict) (templatesDir name sanitized : String)
    (hs : sanitizeName name = some sanitized) :
    (loadTemplate fs templatesDir name = Except.error TemplateError.notFound
      ↔ pyGet fs (templatePath templatesDir sanitized) = Option.none)
    ∧ (pyGet fs (templatePath templatesDir sanitized) = Option.none →
        deleteTemplate fs templatesDir name = Except.ok fs) := by
  constructor
  · constructor
    · intro h
      unfold loadTemplate at h
      rw [hs] at h
      dsimp only at h
      cases hg : pyGet fs (templatePath templatesDir sanitized) with
      | none => rfl
      | some v =>
          rw [hg] at h
          cases v <;> simp at h
          exact absurd h (parsePayload_ne_notFound _ _)
    · intro hg
      unfold loadTemplate
      rw [hs]
      dsimp only
      rw [hg]
  · intro hg
    unfold deleteTemplate
    rw [hs]
    dsimp only
    rw [hg]

/-- Closed witness for C9: on an empty file system, loading the template
name `My Template` (sanitized to `My_Template`) reports not-found and
deleting it is a no-op. -/
theorem template_not_found_spec_witness :
    (loadTemplate [] "t" "My Template" = Except.error TemplateError.notFound
      ↔ pyGet [] (templatePath "t" "My_Template") = Option.none)
    ∧ deleteTemplate [] "t" "My Template" = Except.ok [] :=
  ⟨(template_not_found_spec [] "t" "My Template" "My_Template" rfl).1,
   (template_not_found_spec [] "t" "My Template" "My_Template" rfl).2 rfl⟩
